import Mathlib

/-!
Shallow embedding of the overlay-listener reconciliation engine of the
scrypted-osd-manager repository (source file `src/utils.ts`), together with
proofs checking the natural-language specification against it.

JavaScript values that flow through the code (setting values, event data,
current sensor readings) are modelled by the inductive type `JsVal`;
`undefined` is `JsVal.undef`, numbers are `JsNum` (a rational or NaN, since
only decimal arithmetic is exercised), strings are Lean strings, and
object-detection payloads are `JsVal.dets`.  Fallible code (property access
on `undefined`, which throws a `TypeError` in JavaScript) is modelled with
`Except String`.
-/

/-- Listener categories, source enum `ListenerType` in `src/utils.ts`. -/
inductive LType where
  | Face
  | Humidity
  | Temperature
deriving DecidableEq, Repr

/-- String rendering of a `ListenerType` enum value (the enum is a string enum). -/
def ltStr : LType → String
  | .Face => "Face"
  | .Humidity => "Humidity"
  | .Temperature => "Temperature"

/-- One entry of an `ObjectsDetected.detections` array; `label` may be `undefined`. -/
structure Detection where
  className : String
  label : Option String
deriving DecidableEq, Repr

/-- JavaScript number: either NaN or a decimal value (modelled as a rational). -/
inductive JsNum where
  | nan
  | fin (q : ℚ)
deriving DecidableEq, Repr

/-- JavaScript runtime values relevant to this program. -/
inductive JsVal where
  | undef
  | num (n : JsNum)
  | str (s : String)
  | dets (l : List Detection)
deriving DecidableEq, Repr

/-- A `Setting` object as consumed by `getOverlay`: a key and its `value`. -/
structure Setting where
  key : String
  value : JsVal
deriving DecidableEq, Repr

/-- The `Overlay` descriptor produced by `getOverlay` in `src/utils.ts`.
The `type` field is kept as the raw string (the TS enum is a string enum and
an arbitrary stored string flows through unchecked); absent fields are `none`
(`undefined`). -/
structure Overlay where
  text : Option String
  type : String
  device : Option String
  regex : Option String
  maxDecimals : Option JsNum
deriving DecidableEq, Repr

/-- A device as seen through `sdk.systemManager`: its name, interface list and
current sensor readings. -/
structure DeviceInfo where
  name : String
  interfaces : List String
  temperature : JsVal
  humidity : JsVal
  temperatureUnit : String
deriving DecidableEq, Repr

/-- The device registry `sdk.systemManager`, mapping ids to devices. -/
def Registry : Type := String → Option DeviceInfo

/-- Model of `sdk.systemManager.getDeviceById` applied to a possibly
`undefined` id: `getDeviceById(undefined)` yields `undefined`. -/
def getDeviceById (reg : Registry) : Option String → Option DeviceInfo
  | none => none
  | some d => reg d

/-- JavaScript truthiness of a string-or-undefined value: only a nonempty
string is truthy. -/
def truthyOpt : Option String → Bool
  | none => false
  | some s => s ≠ ""

/-- Coercion used when a `Setting` value is read as the overlay `type`
(`value ?? OverlayType.Text`): nullish values default to `"Text"`;
a non-string, non-nullish value matches none of the overlay type branches,
modelled by the empty string. -/
def jsValAsTypeStr : Option JsVal → String
  | none => "Text"
  | some .undef => "Text"
  | some (.str s) => s
  | some _ => ""

/-- Reading a `Setting` value as a string-or-undefined (used for the `text`,
`device` and `regex` fields, which carry strings when present). -/
def jsValAsStrOpt : Option JsVal → Option String
  | some (.str s) => some s
  | _ => none

/-- Reading a `Setting` value as a number-or-undefined (used for the
`maxDecimals` field).  The raw number is kept — negative, fractional or NaN
values all flow on to `toFixed`, which is where the ECMA conversion and the
RangeError live.  (Non-number stored values are treated as `undefined`; the
settings UI declares the key with type number.) -/
def jsValAsNumOpt : Option JsVal → Option JsNum
  | some (.num n) => some n
  | _ => none

/-- Turning a string-or-undefined into the raw `data` payload handed to the
update sink (the Text branch passes `overlay.text` directly). -/
def jsOfOptStr : Option String → JsVal
  | none => .undef
  | some s => .str s

/-! ## Decimal printing: `Number.prototype.toFixed` -/

/-- Exactly `d` decimal digit characters of `n`, most significant first,
left-padded with zeros (high digits beyond `d` are dropped; callers pass
`n < 10 ^ d`). -/
def natDigitsPadded : Nat → Nat → List Char
  | _, 0 => []
  | n, d + 1 => natDigitsPadded (n / 10) d ++ [Char.ofNat (48 + n % 10)]

/-- Decimal digit characters of `n` with no padding, driven by explicit fuel
so that the kernel can evaluate it (fuel `n + 1` always suffices). -/
def natDecCharsAux : Nat → Nat → List Char
  | 0, _ => []
  | fuel + 1, n =>
    if n < 10 then [Char.ofNat (48 + n)]
    else natDecCharsAux fuel (n / 10) ++ [Char.ofNat (48 + n % 10)]

/-- Decimal digit characters of `n` with no padding (standard base-10 print). -/
def natDecChars (n : Nat) : List Char := natDecCharsAux (n + 1) n

/-- Character list produced by `x.toFixed(d)` for a non-NaN `x`, following
ECMA-262: the sign is split off, the magnitude is scaled by `10 ^ d` and
rounded to the nearest integer with ties away from zero (the larger `n`). -/
def ratToFixedChars (x : ℚ) (d : Nat) : List Char :=
  let sgn : List Char := if x < 0 then ['-'] else []
  let y : ℚ := |x|
  let n : Nat := (Int.floor (y * (10 : ℚ) ^ d + 1 / 2)).toNat
  if d = 0 then sgn ++ natDecChars n
  else sgn ++ natDecChars (n / 10 ^ d) ++ '.' :: natDigitsPadded (n % 10 ^ d) d

/-- `ToIntegerOrInfinity` applied to the `fractionDigits` argument of
`toFixed`: `undefined` and NaN become 0, finite values truncate toward
zero. -/
def toIntDigits : Option JsNum → Int
  | none => 0
  | some .nan => 0
  | some (.fin q) => q.num.tdiv q.den

/-- The RangeError message thrown by `toFixed` for digits outside 0..100. -/
def rangeErrMsg : String :=
  "RangeError: toFixed() digits argument must be between 0 and 100"

/-- Model of `Number::toString` for magnitudes of at least 1e21, which print
in exponential notation: sign, leading digit, the remaining significant
digits of the integer part with trailing zeros removed, and the decimal
exponent.  (Doubles of this magnitude are integers, so the fractional part
of the rational model is dropped.) -/
def jsNumToString (q : ℚ) : String :=
  let sgn := if q < 0 then "-" else ""
  let ds := natDecChars (Int.floor |q|).toNat
  let exp := ds.length - 1
  let sig := (ds.reverse.dropWhile (fun c => c = '0')).reverse
  match sig with
  | [] => sgn ++ "0"
  | [c] => sgn ++ String.mk [c] ++ "e+" ++ String.mk (natDecChars exp)
  | c :: rest =>
    sgn ++ String.mk [c] ++ "." ++ String.mk rest ++ "e+" ++ String.mk (natDecChars exp)

/-- Whether the magnitude of `q` is at least 1e21: with `q = num / den` in
lowest terms, `|q| >= 10 ^ 21` exactly when `10 ^ 21 * den <= |num|` (stated
over Nat so the kernel can evaluate it). -/
def bigMagnitude (q : ℚ) : Bool := 10 ^ 21 * q.den ≤ q.num.natAbs

/-- `Number.prototype.toFixed`, following ECMA-262 step order: the digits
argument is converted first and a RangeError is thrown if it lies outside
0..100 (even for a NaN receiver); then NaN prints as `"NaN"`; magnitudes of
at least 1e21 fall back to `ToString` (exponential notation); only smaller
finite values are printed fixed-point with exactly `f` fractional digits. -/
def jsToFixed (v : JsNum) (digits : Option JsNum) : Except String String :=
  let f := toIntDigits digits
  if f < 0 ∨ 100 < f then .error rangeErrMsg
  else match v with
  | .nan => .ok "NaN"
  | .fin q =>
    if bigMagnitude q then .ok (jsNumToString q)
    else .ok (String.mk (ratToFixedChars q f.toNat))

/-! ## `Number(...)` coercion for the values the program feeds it -/

/-- Digit value of a character, if it is a decimal digit. -/
def digitVal (c : Char) : Option Nat :=
  if c.isDigit then some (c.toNat - 48) else none

/-- Value of a string of decimal digits, `none` if any character is not a digit.
The empty list yields `some 0` (callers guard emptiness). -/
def allDigitsVal (l : List Char) : Option Nat :=
  l.foldl (fun acc c => acc.bind (fun n => (digitVal c).map (fun d => n * 10 + d))) (some 0)

/-- Model of `Number(s)` for a string, restricted to optionally signed decimal
literals (the only class this program can meet): the trimmed empty string is 0,
ill-formed strings are NaN. -/
def parseJsNumber (s : String) : JsNum :=
  let t := ((s.toList.dropWhile (fun c => c = ' ')).reverse.dropWhile
    (fun c => c = ' ')).reverse
  if t = [] then .fin 0 else
  let (neg, body) : Bool × List Char :=
    match t with
    | '-' :: r => (true, r)
    | '+' :: r => (false, r)
    | r => (false, r)
  let ip := body.takeWhile (fun c => c ≠ '.')
  let rest := body.dropWhile (fun c => c ≠ '.')
  let res : Option ℚ :=
    match rest with
    | [] =>
      if ip = [] then none
      else (allDigitsVal ip).map (fun n => (n : ℚ))
    | _ :: fp =>
      if '.' ∈ fp then none
      else if ip = [] ∧ fp = [] then none
      else match allDigitsVal ip, allDigitsVal fp with
        | some n, some f => some ((n : ℚ) + (f : ℚ) / (10 : ℚ) ^ fp.length)
        | _, _ => none
  match res with
  | none => .nan
  | some q => .fin (if neg then -q else q)

/-- Model of `Number(data ?? 0)` as used in `parseOverlayData`: nullish data
becomes 0, numbers pass through, strings are parsed, objects coerce to NaN. -/
def jsNumberCoerce : JsVal → JsNum
  | .undef => .fin 0
  | .num n => n
  | .str s => parseJsNumber s
  | .dets _ => .nan

/-! ## First-occurrence string replacement (`String.prototype.replace`) -/

/-- Replace the first occurrence of `pat` in `s` by `rep`
(`String.prototype.replace` with a string pattern replaces only the first
occurrence). -/
def listReplaceFirst (s pat rep : List Char) : List Char :=
  match s with
  | [] => if pat.isPrefixOf ([] : List Char) then rep else []
  | c :: rest =>
    if pat.isPrefixOf s then rep ++ s.drop pat.length
    else c :: listReplaceFirst rest pat rep

/-- String version of `listReplaceFirst`. -/
def replaceFirstS (s pat rep : String) : String :=
  String.mk (listReplaceFirst s.toList pat.toList rep.toList)

/-! ## Overlay model: keys, `getOverlay`, `getOverlaySettings` -/

/-- Source constant `osdManagerPrefix` (renamed; the storage-settings layer
namespaces every overlay key with it). -/
def osdManagerNs : String := "osdManager"

/-- The five per-slot storage keys built by `getOverlayKeys`. -/
structure OverlayKeys where
  textKey : String
  typeKey : String
  regexKey : String
  deviceKey : String
  maxDecimalsKey : String
deriving DecidableEq, Repr

/-- Source function `getOverlayKeys`. -/
def getOverlayKeys (overlayId : String) : OverlayKeys :=
  { textKey := "overlay:" ++ overlayId ++ ":text"
    typeKey := "overlay:" ++ overlayId ++ ":type"
    regexKey := "overlay:" ++ overlayId ++ ":regex"
    deviceKey := "overlay:" ++ overlayId ++ ":device"
    maxDecimalsKey := "overlay:" ++ overlayId ++ ":maxDecimals" }

/-- The `settingsByKey` reduce in `getOverlay` builds an object by spreading,
so a later entry with the same key overwrites an earlier one: lookup returns
the value of the last setting with the given key. -/
def settingsByKey (settings : List Setting) (k : String) : Option JsVal :=
  ((settings.filter (fun s => s.key == k)).getLast?).map (fun s => s.value)

/-- Source function `getOverlay`: reads the five namespaced keys; only `type`
carries a default (`?? OverlayType.Text`); the other four fields are plain
optional-chained reads and stay `undefined` when absent. -/
def getOverlay (settings : List Setting) (overlayId : String) : Overlay :=
  let ks := getOverlayKeys overlayId
  let get := fun k => settingsByKey settings (osdManagerNs ++ ":" ++ k)
  { type := jsValAsTypeStr (get ks.typeKey)
    device := jsValAsStrOpt (get ks.deviceKey)
    text := jsValAsStrOpt (get ks.textKey)
    regex := jsValAsStrOpt (get ks.regexKey)
    maxDecimals := jsValAsNumOpt (get ks.maxDecimalsKey) }

/-- Placeholder token for the value, written with escaped braces. -/
def valueToken : String := "$\x7bvalue\x7d"

/-- Placeholder token for the unit, written with escaped braces. -/
def unitToken : String := "$\x7bunit\x7d"

/-- Default template applied by `getOverlaySettings` when the stored regex is
falsy. -/
def defaultTemplate : String := "$\x7bvalue\x7d $\x7bunit\x7d"

/-- Source function `getOverlaySettings`: builds the editable settings list
from raw storage (`getItem`).  The regex default uses `||` (any falsy stored
value is replaced), the `maxDecimals` default uses `?? 1`, and which fields
appear depends on the resolved `type`.  Keys here are un-namespaced; the
storage-settings glue adds the `osdManager` group key. -/
def getOverlaySettings (storage : String → Option JsVal) (overlayIds : List String) :
    List Setting :=
  overlayIds.foldl (fun settings overlayId =>
    let ks := getOverlayKeys overlayId
    let type := jsValAsTypeStr (storage ks.typeKey)
    let settings := settings ++ [⟨ks.typeKey, .str type⟩]
    let settings :=
      if type == "Text" then settings ++ [⟨ks.textKey, (storage ks.textKey).getD .undef⟩]
      else settings
    let regexSetting : Setting :=
      ⟨ks.regexKey, .str (match storage ks.regexKey with
        | some (.str s) => if s == "" then defaultTemplate else s
        | _ => defaultTemplate)⟩
    if type == "Device" then
      settings ++
        [⟨ks.deviceKey, (storage ks.deviceKey).getD .undef⟩,
         regexSetting,
         ⟨ks.maxDecimalsKey, (match storage ks.maxDecimalsKey with
            | none => .num (.fin 1)
            | some .undef => .num (.fin 1)
            | some v => v)⟩]
    else if type == "FaceDetection" then settings ++ [regexSetting]
    else settings) []

/-! ## Template formatter: `parseOverlayData` -/

/-- Value extraction for `ListenerType.Face`:
`(data as ObjectsDetected)?.detections?.find(det => det.className === 'face')?.label`. -/
def faceValue : JsVal → Option String
  | .dets l => (l.find? (fun det => det.className == "face")).bind (fun det => det.label)
  | _ => none

/-- The numeric value string for Temperature/Humidity:
`Number(data ?? 0)?.toFixed(maxDecimals)`; may throw a RangeError for an
out-of-range maxDecimals. -/
def numericValue (data : JsVal) (maxDecimals : Option JsNum) : Except String String :=
  jsToFixed (jsNumberCoerce data) maxDecimals

/-- Template application in `parseOverlayData`:
`regex.replace('${value}', value || '').replace('${unit}', unit || '')`. -/
def applyTemplate (r value unit : String) : String :=
  replaceFirstS (replaceFirstS r valueToken value) unitToken unit

/-- Tail of `parseOverlayData`: if a truthy `value` was produced the template
is applied (throwing if `regex` is `undefined`), otherwise the unchanged
`overlay.text` is returned. -/
def finishParse (overlay : Overlay) (value unit : Option String) :
    Except String (Option String) :=
  if truthyOpt value then
    match overlay.regex with
    | none => .error "TypeError: regex is undefined"
    | some r => .ok (some (applyTemplate r (value.getD "") (unit.getD "")))
  else .ok overlay.text

/-- Source function `parseOverlayData`.  `realDevice` is
`device ? sdk.systemManager.getDeviceById(device) : undefined`; reading
`realDevice.temperatureUnit` with no device throws a TypeError, modelled by
`Except.error`.  The result is the (possibly `undefined`) text to push. -/
def parseOverlayData (reg : Registry) (listenerType : LType) (data : JsVal)
    (overlay : Overlay) : Except String (Option String) :=
  let realDevice : Option DeviceInfo :=
    match overlay.device with
    | some d => if d == "" then none else reg d
    | none => none
  match listenerType with
  | .Face => finishParse overlay (faceValue data) none
  | .Temperature =>
    match numericValue data overlay.maxDecimals with
    | .error e => .error e
    | .ok value =>
      match realDevice with
      | none => .error "TypeError: temperatureUnit of undefined"
      | some dev => finishParse overlay (some value) (some dev.temperatureUnit)
  | .Humidity =>
    match numericValue data overlay.maxDecimals with
    | .error e => .error e
    | .ok value => finishParse overlay (some value) (some "%")

/-! ## Listener reconciler: `listenersIntevalFn` -/

/-- One entry of the `ListenersMap` (`currentListeners[overlayId]`): the
listener kind, the `device` stamp (copied from `overlay.device`, possibly
`undefined`), and the subscription handle (`EventListenerRegister`, modelled
by the natural number allocated at subscribe time). -/
structure ListenerEntry where
  listenerType : LType
  device : Option String
  listener : Nat
deriving DecidableEq, Repr

/-- The mutable `currentListeners` record, as an association list. -/
abbrev ListenersMap : Type := List (String × ListenerEntry)

/-- Property lookup `currentListeners[overlayId]` (first matching key). -/
def lookupL (m : ListenersMap) (k : String) : Option ListenerEntry :=
  match m with
  | [] => none
  | p :: rest => if p.1 == k then some p.2 else lookupL rest k

/-- Property assignment `currentListeners[overlayId] = e`. -/
def insertL (m : ListenersMap) (k : String) (e : ListenerEntry) : ListenersMap :=
  match m with
  | [] => [(k, e)]
  | p :: rest => if p.1 == k then (k, e) :: rest else p :: insertL rest k e

/-- Observable side effects of one reconciliation pass, in program order:
`console.log`, `removeListener` (release), `realDevice.listen` (subscribe)
and calls of `onUpdateFn` (push to the update sink). -/
inductive Effect where
  | log (msg : String)
  | release (overlayId : String) (handle : Nat)
  | subscribe (overlayId : String) (deviceId : String) (iface : String) (handle : Nat)
  | update (overlayId : String) (listenerType : Option LType) (data : JsVal) (noLog : Bool)
deriving DecidableEq, Repr

/-- The three resolution variables of the loop body (`listenerType`,
`listenInterface`, `deviceId`), all starting `undefined`. -/
structure Resolved where
  listenerType : Option LType
  listenInterface : Option String
  deviceId : Option String
deriving DecidableEq, Repr

/-- Resolution of a slot to its desired listener (lines 173-196 of
`src/utils.ts`): `Device` slots look the bound device up and check
`Thermometer` before `HumiditySensor`; `FaceDetection` slots listen on the
host camera itself (`deviceId = id`); anything else resolves to nothing. -/
def resolveListener (reg : Registry) (id : String) (overlay : Overlay) : Resolved :=
  if overlay.type == "Device" then
    match getDeviceById reg overlay.device with
    | some realDevice =>
      if realDevice.interfaces.contains "Thermometer" then
        ⟨some .Temperature, some "Thermometer", overlay.device⟩
      else if realDevice.interfaces.contains "HumiditySensor" then
        ⟨some .Humidity, some "HumiditySensor", overlay.device⟩
      else ⟨none, none, none⟩
    | none => ⟨none, none, none⟩
  else if overlay.type == "FaceDetection" then
    ⟨some .Face, some "ObjectDetection", some id⟩
  else ⟨none, none, none⟩

/-- `(!currentListener || currentListener.listenerType !== listenerType)`. -/
def differentTypeB (cl : Option ListenerEntry) (lt : Option LType) : Bool :=
  match cl with
  | none => true
  | some c => some c.listenerType ≠ lt

/-- `overlay.type === OverlayType.Device ? currentDevice !== overlay.device : false`
where `currentDevice = currentListener?.device`. -/
def differentDeviceB (overlay : Overlay) (cl : Option ListenerEntry) : Bool :=
  if overlay.type == "Device" then cl.bind (fun c => c.device) ≠ overlay.device
  else false

/-- The full guard deciding whether a new subscription is opened:
`listenerType` truthy, `listenInterface && deviceId` truthy, and
`(differentType || differentDevice)`. -/
def subGuard (reg : Registry) (id : String) (settings : List Setting)
    (overlayId : String) (cl : Option ListenerEntry) : Bool :=
  let overlay := getOverlay settings overlayId
  let r := resolveListener reg id overlay
  r.listenerType.isSome && truthyOpt r.listenInterface && truthyOpt r.deviceId &&
    (differentTypeB cl r.listenerType || differentDeviceB overlay cl)

/-- State threaded through one pass: the listeners map, the fresh-handle
counter, and the trace of effects emitted so far. -/
structure PassState where
  listeners : ListenersMap
  nextHandle : Nat
  trace : List Effect
deriving DecidableEq, Repr

/-- The `Device ${overlay.device} not found` diagnostic (template literals
print `undefined` for an absent id). -/
def logNotFound (reg : Registry) (overlay : Overlay) (st : PassState) : PassState :=
  if overlay.type == "Device" && (getDeviceById reg overlay.device).isNone then
    { st with trace := st.trace ++
        [.log ("Device " ++ (overlay.device.getD "undefined") ++ " not found")] }
  else st

/-- The startup log message of the subscribe branch. -/
def startMsg (overlayId name lt li : String) : String :=
  "Overlay " ++ overlayId ++ ": starting device " ++ name ++
    " listener for type " ++ lt ++ " on interface " ++ li

/-- The subscribe branch (lines 204-228): log, release the old handle if one
is recorded, open the new listener, immediately push the current reading for
`Thermometer`/`HumiditySensor`, and store the new entry (stamped with
`overlay.device`). -/
def doSubscribe (st : PassState) (overlayId : String) (overlay : Overlay)
    (lt : LType) (li did : String) (cl : Option ListenerEntry)
    (realDevice : DeviceInfo) : PassState :=
  let t1 := st.trace ++ [.log (startMsg overlayId realDevice.name (ltStr lt) li)]
  let t2 := t1 ++ (match cl with
    | some c => [.release overlayId c.listener]
    | none => [])
  let h := st.nextHandle
  let t3 := t2 ++ [.subscribe overlayId did li h]
  let t4 :=
    if li == "Thermometer" then
      t3 ++ [.update overlayId (some lt) realDevice.temperature false]
    else if li == "HumiditySensor" then
      t3 ++ [.update overlayId (some lt) realDevice.humidity false]
    else t3
  { listeners := insertL st.listeners overlayId ⟨lt, overlay.device, h⟩
    nextHandle := h + 1
    trace := t4 }

/-- The Text branch (lines 230-238): release the recorded handle if any and
push the static text with `noLog: true`.  The map entry is NOT removed. -/
def doTextBranch (st : PassState) (overlayId : String) (overlay : Overlay)
    (cl : Option ListenerEntry) : PassState :=
  let t1 := st.trace ++ (match cl with
    | some c => [.release overlayId c.listener]
    | none => [])
  { st with trace := t1 ++ [.update overlayId none (jsOfOptStr overlay.text) true] }

/-- One iteration of the loop body of `listenersIntevalFn` for a single
`overlayId`.  The only statement that can throw inside the loop is
`realDevice.name` on line 205: in the FaceDetection path `deviceId = id` is
never looked up before use, so an unresolvable host id raises a TypeError
that propagates out of the whole pass (there is no try/catch). -/
def processOverlay (reg : Registry) (id : String) (settings : List Setting)
    (st : PassState) (overlayId : String) : Except String PassState :=
  let overlay := getOverlay settings overlayId
  let r := resolveListener reg id overlay
  let st1 := logNotFound reg overlay st
  let cl := lookupL st1.listeners overlayId
  match r.listenerType with
  | some lt =>
    if subGuard reg id settings overlayId cl then
      match getDeviceById reg r.deviceId with
      | none => .error "TypeError: name of undefined"
      | some realDevice =>
        .ok (doSubscribe st1 overlayId overlay lt (r.listenInterface.getD "")
          (r.deviceId.getD "") cl realDevice)
    else .ok st1
  | none =>
    if overlay.type == "Text" then .ok (doTextBranch st1 overlayId overlay cl)
    else .ok st1

/-- The `for (const overlayId of overlayIds)` loop: sequential, no error
isolation, so a thrown TypeError aborts the remaining iterations. -/
def passAux (reg : Registry) (id : String) (settings : List Setting) :
    PassState → List String → Except String PassState
  | st, [] => .ok st
  | st, overlayId :: rest =>
    match processOverlay reg id settings st overlayId with
    | .error e => .error e
    | .ok st1 => passAux reg id settings st1 rest

/-- Source function `listenersIntevalFn`: one reconciliation pass over all
`overlayIds`, starting from the persistent `currentListeners` map and the
fresh-handle counter, with an empty trace for this pass. -/
def listenersIntevalFn (reg : Registry) (overlayIds : List String)
    (settings : List Setting) (id : String) (currentListeners : ListenersMap)
    (nextHandle : Nat) : Except String PassState :=
  passAux reg id settings ⟨currentListeners, nextHandle, []⟩ overlayIds

/-! ## Structural lemmas about the reconciler -/

/-! ## Proof-layer definitions and concrete instances used by the claims -/

/-- Effects that a steady-state (converged) pass may still emit: logs and
updates freely, releases only for slots whose resolved type is `Text`, and no
subscribes at all. -/
def quietEffect (settings : List Setting) : Effect → Prop
  | .subscribe _ _ _ _ => False
  | .release o _ => (getOverlay settings o).type = "Text"
  | _ => True

/-- A slot is converged in a listeners map when the subscribe guard is false
for its recorded entry. -/
def converged (reg : Registry) (id : String) (settings : List Setting)
    (o : String) (m : ListenersMap) : Prop :=
  subGuard reg id settings o (lookupL m o) = false

/-- Number of characters after the decimal point, if the list contains one. -/
def fracLen (l : List Char) : Option Nat :=
  if '.' ∈ l then some ((l.reverse.takeWhile (fun c => c ≠ '.')).length) else none

/-- Listener kind a found device resolves to (`Thermometer` checked first). -/
def desiredLt (dev : DeviceInfo) : LType :=
  if "Thermometer" ∈ dev.interfaces then .Temperature else .Humidity

/-- Interface a found device is subscribed on. -/
def desiredIfc (dev : DeviceInfo) : String :=
  if "Thermometer" ∈ dev.interfaces then "Thermometer" else "HumiditySensor"

/-- Current reading pushed immediately after subscribing. -/
def desiredData (dev : DeviceInfo) : JsVal :=
  if "Thermometer" ∈ dev.interfaces then dev.temperature else dev.humidity

/-- Registry for the C3 counterexample: no device resolves. -/
def c3Reg : Registry := fun _ => none

/-- Settings for the C3 counterexample: a Device slot bound to a missing id. -/
def c3Settings : List Setting :=
  [⟨"osdManager:overlay:3:type", .str "Device"⟩,
   ⟨"osdManager:overlay:3:device", .str "devGone"⟩]

/-- Stale listeners map for the C3 counterexample. -/
def c3Map : ListenersMap := [("3", ⟨.Temperature, some "devGone", 5⟩)]

/-- Settings for the witness of the amended C3: a Text slot. -/
def w3Settings : List Setting :=
  [⟨"osdManager:overlay:w3:type", .str "Text"⟩,
   ⟨"osdManager:overlay:w3:text", .str "Hi"⟩]

/-- Stale listeners map for the witness of the amended C3. -/
def w3Map : ListenersMap := [("w3", ⟨.Face, none, 2⟩)]

/-- Registry for the C4 witness. -/
def w4Reg : Registry := fun d =>
  if d = "devB4" then some ⟨"B4", ["Thermometer"], .num (.fin 25), .undef, "F"⟩
  else none

/-- Settings for the C4 witness. -/
def w4Settings : List Setting :=
  [⟨"osdManager:overlay:w4:type", .str "Device"⟩,
   ⟨"osdManager:overlay:w4:device", .str "devB4"⟩]

/-- Listeners map for the C4 witness: previously bound to devA4. -/
def w4Map : ListenersMap := [("w4", ⟨.Temperature, some "devA4", 0⟩)]

/-- Registry for the C6 witness: a humidity-only sensor. -/
def w6Reg : Registry := fun d =>
  if d = "hum6" then some ⟨"H6", ["HumiditySensor"], .undef, .num (.fin 55), ""⟩
  else none

/-- Settings for the C6 witness. -/
def w6Settings : List Setting :=
  [⟨"osdManager:overlay:w6:type", .str "Device"⟩,
   ⟨"osdManager:overlay:w6:device", .str "hum6"⟩]

/-- Registry for the C2 witness. -/
def w2Reg : Registry := fun d =>
  if d = "devW2" then some ⟨"W2", ["Thermometer"], .num (.fin 19), .undef, "C"⟩
  else none

/-- Settings for the C2 witness: Device slot, no maxDecimals or template. -/
def w2Settings : List Setting :=
  [⟨"osdManager:overlay:w2:type", .str "Device"⟩,
   ⟨"osdManager:overlay:w2:device", .str "devW2"⟩]

/-- Variant settings for the C2 witness differing only in the template key. -/
def w2Settings2 : List Setting :=
  [⟨"osdManager:overlay:w2:type", .str "Device"⟩,
   ⟨"osdManager:overlay:w2:device", .str "devW2"⟩,
   ⟨"osdManager:overlay:w2:regex", .str "$\x7bvalue\x7d"⟩]

/-- Listeners map for the C2 witness: entry already matches the slot. -/
def w2Map : ListenersMap := [("w2", ⟨.Temperature, some "devW2", 4⟩)]

/-- Settings for the C10 witness. -/
def w10Settings : List Setting :=
  [⟨"osdManager:overlay:w10:type", .str "Text"⟩,
   ⟨"osdManager:overlay:w10:text", .str "W10"⟩]

/-- Registry for the C1 claim: one thermometer device. -/
def c1Reg : Registry := fun d =>
  if d = "devA" then some ⟨"Sensor A", ["Thermometer"], .num (.fin 21), .undef, "C"⟩
  else none

/-- Settings binding overlay 1 to the device (used to reach a subscribed
state from the empty map). -/
def c1DevSettings : List Setting :=
  [⟨"osdManager:overlay:1:type", .str "Device"⟩,
   ⟨"osdManager:overlay:1:device", .str "devA"⟩]

/-- Settings for the same overlay after the user switches it to static text. -/
def c1TextSettings : List Setting :=
  [⟨"osdManager:overlay:1:type", .str "Text"⟩,
   ⟨"osdManager:overlay:1:text", .str "Hello"⟩]

/-- The state after the first pass with the device settings. -/
def c1FirstPass : PassState :=
  ⟨[("1", ⟨.Temperature, some "devA", 0⟩)], 1,
   [.log "Overlay 1: starting device Sensor A listener for type Temperature on interface Thermometer",
    .subscribe "1" "devA" "Thermometer" 0,
    .update "1" (some .Temperature) (.num (.fin 21)) false]⟩

/-- Registry for the C5 counterexample: nothing resolves, not even the host
camera id. -/
def c5Reg : Registry := fun _ => none

/-- Settings for the C5 counterexample: slot 1 is FaceDetection, slot 2 is
Text. -/
def c5Settings : List Setting :=
  [⟨"osdManager:overlay:1:type", .str "FaceDetection"⟩,
   ⟨"osdManager:overlay:2:type", .str "Text"⟩,
   ⟨"osdManager:overlay:2:text", .str "Hello"⟩]

/-- Device used by the C5 witness. -/
def w5Dev : DeviceInfo := ⟨"Cam5", ["Thermometer"], .num (.fin 20), .undef, "C"⟩

/-- Registry for the C5 witness: the host camera resolves. -/
def w5Reg : Registry := fun d => if d = "cam5" then some w5Dev else none

theorem lookupL_insertL_self (m : ListenersMap) (k : String) (e : ListenerEntry) :
    lookupL (insertL m k e) k = some e := by
  induction m with
  | nil => simp [insertL, lookupL]
  | cons p rest ih =>
    by_cases h : p.1 = k
    · simp [insertL, h, lookupL]
    · simp only [insertL, beq_iff_eq, h, if_false]
      simpa [lookupL, h] using ih

theorem lookupL_insertL_ne (m : ListenersMap) (k k2 : String) (e : ListenerEntry)
    (h : k2 ≠ k) : lookupL (insertL m k e) k2 = lookupL m k2 := by
  induction m with
  | nil => simp [insertL, lookupL, Ne.symm h]
  | cons p rest ih =>
    by_cases hp : p.1 = k
    · simp [insertL, hp, lookupL, Ne.symm h]
    · simp only [insertL, beq_iff_eq, hp, if_false]
      by_cases hp2 : p.1 = k2
      · simp [lookupL, hp2]
      · simpa [lookupL, hp2] using ih

theorem logNotFound_listeners (reg : Registry) (overlay : Overlay) (st : PassState) :
    (logNotFound reg overlay st).listeners = st.listeners := by
  unfold logNotFound; split <;> rfl

theorem logNotFound_nextHandle (reg : Registry) (overlay : Overlay) (st : PassState) :
    (logNotFound reg overlay st).nextHandle = st.nextHandle := by
  unfold logNotFound; split <;> rfl

theorem logNotFound_trace (reg : Registry) (overlay : Overlay) (st : PassState) :
    ∃ ex, (logNotFound reg overlay st).trace = st.trace ++ ex ∧
      ∀ e ∈ ex, ∃ m, e = Effect.log m := by
  unfold logNotFound; split
  · exact ⟨_, rfl, by simp⟩
  · exact ⟨[], by simp, by simp⟩

theorem logNotFound_eq (reg : Registry) (overlay : Overlay) (st : PassState) :
    ∃ ex, logNotFound reg overlay st = ⟨st.listeners, st.nextHandle, st.trace ++ ex⟩ ∧
      ∀ e ∈ ex, ∃ m, e = Effect.log m := by
  unfold logNotFound; split
  · exact ⟨_, rfl, by simp⟩
  · exact ⟨[], by simp, by simp⟩

theorem subGuard_false_of_none {reg : Registry} {id : String} {settings : List Setting}
    {o : String} (cl : Option ListenerEntry)
    (h : (resolveListener reg id (getOverlay settings o)).listenerType = none) :
    subGuard reg id settings o cl = false := by
  simp [subGuard, h]

theorem processOverlay_frame {reg : Registry} {id : String} {settings : List Setting}
    {st : PassState} {o : String} {st2 : PassState}
    (h : processOverlay reg id settings st o = .ok st2) {o2 : String} (h2 : o2 ≠ o) :
    lookupL st2.listeners o2 = lookupL st.listeners o2 := by
  simp only [processOverlay] at h
  split at h
  · split at h
    · split at h
      · simp at h
      · injection h with h; subst h
        simp [doSubscribe, logNotFound_listeners, lookupL_insertL_ne _ _ _ _ h2]
    · injection h with h; subst h
      simp [logNotFound_listeners]
  · split at h
    · injection h with h; subst h
      simp [doTextBranch, logNotFound_listeners]
    · injection h with h; subst h
      simp [logNotFound_listeners]

theorem processOverlay_ok_converged {reg : Registry} {id : String}
    {settings : List Setting} {st : PassState} {o : String} {st2 : PassState}
    (h : processOverlay reg id settings st o = .ok st2) :
    converged reg id settings o st2.listeners := by
  unfold converged
  simp only [processOverlay] at h
  split at h
  case h_1 lt hlt =>
    split at h
    case isTrue hg =>
      split at h
      · simp at h
      case h_2 realDevice hdev =>
        injection h with h; subst h
        simp only [doSubscribe]
        rw [lookupL_insertL_self]
        simp [subGuard, hlt, differentTypeB, differentDeviceB]
    case isFalse hg =>
      injection h with h; subst h
      simpa using hg
  case h_2 hlt =>
    split at h <;> (injection h with h; subst h)
    · simp only [doTextBranch]
      exact subGuard_false_of_none _ hlt
    · exact subGuard_false_of_none _ hlt

theorem processOverlay_converged_step {reg : Registry} {id : String}
    {settings : List Setting} {st : PassState} {o : String}
    (hc : converged reg id settings o st.listeners) :
    ∃ ex, processOverlay reg id settings st o =
        .ok ⟨st.listeners, st.nextHandle, st.trace ++ ex⟩ ∧
      ∀ e ∈ ex, quietEffect settings e := by
  unfold converged at hc
  obtain ⟨ex0, heq, hlog⟩ := logNotFound_eq reg (getOverlay settings o) st
  have hq0 : ∀ e ∈ ex0, quietEffect settings e := by
    intro e he; obtain ⟨m, rfl⟩ := hlog e he; trivial
  cases hres : (resolveListener reg id (getOverlay settings o)).listenerType with
  | none =>
    by_cases htxt : (getOverlay settings o).type = "Text"
    · cases hcl : lookupL st.listeners o with
      | none =>
        refine ⟨ex0 ++ [.update o none (jsOfOptStr (getOverlay settings o).text) true],
          ?_, ?_⟩
        · simp [processOverlay, heq, hres, htxt, doTextBranch, hcl]
        · intro e he
          rcases List.mem_append.1 he with h1 | h1
          · exact hq0 e h1
          · simp only [List.mem_singleton] at h1; subst h1; trivial
      | some c =>
        refine ⟨ex0 ++ [.release o c.listener,
          .update o none (jsOfOptStr (getOverlay settings o).text) true], ?_, ?_⟩
        · simp [processOverlay, heq, hres, htxt, doTextBranch, hcl]
        · intro e he
          rcases List.mem_append.1 he with h1 | h1
          · exact hq0 e h1
          · rcases List.mem_cons.1 h1 with rfl | h1
            · simpa [quietEffect] using htxt
            · simp only [List.mem_singleton] at h1; subst h1; trivial
    · refine ⟨ex0, ?_, hq0⟩
      simp [processOverlay, heq, hres, htxt]
  | some lt =>
    refine ⟨ex0, ?_, hq0⟩
    simp [processOverlay, heq, hres, hc]

theorem processOverlay_trace_mono {reg : Registry} {id : String}
    {settings : List Setting} {st : PassState} {o : String} {st2 : PassState}
    (h : processOverlay reg id settings st o = .ok st2) :
    ∃ ex, st2.trace = st.trace ++ ex := by
  simp only [processOverlay] at h
  obtain ⟨ex0, heq, -⟩ := logNotFound_eq reg (getOverlay settings o) st
  rw [heq] at h
  split at h
  · split at h
    · split at h
      · simp at h
      · injection h with h; subst h
        simp only [doSubscribe, List.append_assoc]
        split <;> [skip; split] <;> exact ⟨_, rfl⟩
    · injection h with h; subst h
      exact ⟨ex0, rfl⟩
  · split at h <;> (injection h with h; subst h)
    · simp only [doTextBranch, List.append_assoc]
      exact ⟨_, rfl⟩
    · exact ⟨ex0, rfl⟩

theorem passAux_trace_mono {reg : Registry} {id : String} {settings : List Setting} :
    ∀ {os : List String} {st st2 : PassState},
    passAux reg id settings st os = .ok st2 → ∃ ex, st2.trace = st.trace ++ ex := by
  intro os
  induction os with
  | nil =>
    intro st st2 h
    injection h with h; subst h; exact ⟨[], by simp⟩
  | cons o2 rest ih =>
    intro st st2 h
    simp only [passAux] at h
    split at h
    · simp at h
    next st1 heq =>
      obtain ⟨ex1, he1⟩ := processOverlay_trace_mono heq
      obtain ⟨ex2, he2⟩ := ih h
      exact ⟨ex1 ++ ex2, by rw [he2, he1, List.append_assoc]⟩

theorem passAux_preserves_converged {reg : Registry} {id : String}
    {settings : List Setting} {o : String} :
    ∀ {os : List String} {st st2 : PassState},
    converged reg id settings o st.listeners →
    passAux reg id settings st os = .ok st2 →
    converged reg id settings o st2.listeners := by
  intro os
  induction os with
  | nil =>
    intro st st2 hc h
    injection h with h; subst h; exact hc
  | cons o2 rest ih =>
    intro st st2 hc h
    simp only [passAux] at h
    split at h
    · simp at h
    next st1 heq =>
      have hc1 : converged reg id settings o st1.listeners := by
        by_cases ho : o2 = o
        · subst ho
          obtain ⟨ex, heq2, -⟩ := processOverlay_converged_step hc
          rw [heq2] at heq
          injection heq with heq
          rw [← heq]
          exact hc
        · unfold converged
          rw [processOverlay_frame heq (Ne.symm ho)]
          exact hc
      exact ih hc1 h

theorem passAux_all_converged {reg : Registry} {id : String} {settings : List Setting} :
    ∀ {os : List String} {st st2 : PassState},
    passAux reg id settings st os = .ok st2 →
    ∀ o ∈ os, converged reg id settings o st2.listeners := by
  intro os
  induction os with
  | nil =>
    intro st st2 h o ho
    simp at ho
  | cons o2 rest ih =>
    intro st st2 h o ho
    simp only [passAux] at h
    split at h
    · simp at h
    next st1 heq =>
      rcases List.mem_cons.1 ho with rfl | ho2
      · exact passAux_preserves_converged (processOverlay_ok_converged heq) h
      · exact ih h o ho2

theorem passAux_converged_quiet {reg : Registry} {id : String} {settings : List Setting} :
    ∀ {os : List String} {st : PassState},
    (∀ o ∈ os, converged reg id settings o st.listeners) →
    ∃ st2, passAux reg id settings st os = .ok st2 ∧
      st2.listeners = st.listeners ∧ st2.nextHandle = st.nextHandle ∧
      ∃ ex, st2.trace = st.trace ++ ex ∧ ∀ e ∈ ex, quietEffect settings e := by
  intro os
  induction os with
  | nil =>
    intro st hall
    exact ⟨st, rfl, rfl, rfl, [], by simp, by simp⟩
  | cons o2 rest ih =>
    intro st hall
    obtain ⟨ex1, hstep, hq1⟩ := processOverlay_converged_step (hall o2 (by simp))
    have hall1 : ∀ o ∈ rest, converged reg id settings o
        (⟨st.listeners, st.nextHandle, st.trace ++ ex1⟩ : PassState).listeners := by
      intro o ho; exact hall o (by simp [ho])
    obtain ⟨st2, hpass, hl, hn, ex2, htr, hq2⟩ := ih hall1
    refine ⟨st2, ?_, by simpa using hl, by simpa using hn, ex1 ++ ex2, ?_, ?_⟩
    · simp only [passAux, hstep]
      exact hpass
    · rw [htr]; simp
    · intro e he
      rcases List.mem_append.1 he with h1 | h1
      · exact hq1 e h1
      · exact hq2 e h1

theorem resolveListener_of_text {reg : Registry} {id : String} {overlay : Overlay}
    (h : overlay.type = "Text") : resolveListener reg id overlay = ⟨none, none, none⟩ := by
  simp [resolveListener, h]

theorem resolve_cases (reg : Registry) (id : String) (overlay : Overlay) :
    (resolveListener reg id overlay).listenerType = none ∨
    (∃ dev, getDeviceById reg overlay.device = some dev ∧
      (resolveListener reg id overlay).deviceId = overlay.device) ∨
    (resolveListener reg id overlay).deviceId = some id := by
  unfold resolveListener
  split
  · cases hdev : getDeviceById reg overlay.device with
    | none => exact .inl rfl
    | some dev =>
      by_cases ht : "Thermometer" ∈ dev.interfaces
      · exact .inr (.inl ⟨dev, rfl, by simp [ht]⟩)
      · by_cases hh : "HumiditySensor" ∈ dev.interfaces
        · exact .inr (.inl ⟨dev, rfl, by simp [ht, hh]⟩)
        · exact .inl (by simp [ht, hh])
  · split
    · exact .inr (.inr rfl)
    · exact .inl rfl

theorem processOverlay_ok_total {reg : Registry} {id : String}
    {settings : List Setting} {st : PassState} {o : String}
    (hid : (reg id).isSome) :
    ∃ st2, processOverlay reg id settings st o = .ok st2 := by
  simp only [processOverlay]
  cases hres : (resolveListener reg id (getOverlay settings o)).listenerType with
  | none =>
    by_cases htxt : ((getOverlay settings o).type == "Text") = true
    · rw [if_pos htxt]; exact ⟨_, rfl⟩
    · rw [if_neg htxt]; exact ⟨_, rfl⟩
  | some lt =>
    dsimp only
    by_cases hg : subGuard reg id settings o
        (lookupL (logNotFound reg (getOverlay settings o) st).listeners o) = true
    · rw [if_pos hg]
      rcases resolve_cases reg id (getOverlay settings o) with h | ⟨dev, hdev, hdid⟩ | hdid
      · rw [h] at hres; cases hres
      · have hsome : getDeviceById reg
            (resolveListener reg id (getOverlay settings o)).deviceId = some dev := by
          rw [hdid]; exact hdev
        rw [hsome]; exact ⟨_, rfl⟩
      · obtain ⟨dev, hg2⟩ := Option.isSome_iff_exists.1 hid
        have hsome : getDeviceById reg
            (resolveListener reg id (getOverlay settings o)).deviceId = some dev := by
          rw [hdid]; exact hg2
        rw [hsome]; exact ⟨_, rfl⟩
    · rw [if_neg hg]; exact ⟨_, rfl⟩

theorem passAux_ok_total {reg : Registry} {id : String} {settings : List Setting}
    (hid : (reg id).isSome) :
    ∀ {os : List String} {st : PassState},
    ∃ st2, passAux reg id settings st os = .ok st2 := by
  intro os
  induction os with
  | nil => intro st; exact ⟨st, rfl⟩
  | cons o2 rest ih =>
    intro st
    obtain ⟨st1, h1⟩ := @processOverlay_ok_total reg id settings st o2 hid
    obtain ⟨st2, h2⟩ := @ih st1
    exact ⟨st2, by simp only [passAux, h1]; exact h2⟩

theorem passAux_text_update {reg : Registry} {id : String} {settings : List Setting} :
    ∀ {os : List String} {st st2 : PassState},
    passAux reg id settings st os = .ok st2 →
    ∀ o ∈ os, (getOverlay settings o).type = "Text" →
    Effect.update o none (jsOfOptStr (getOverlay settings o).text) true ∈ st2.trace := by
  intro os
  induction os with
  | nil =>
    intro st st2 h o ho
    simp at ho
  | cons o2 rest ih =>
    intro st st2 h o ho htxt
    simp only [passAux] at h
    split at h
    · simp at h
    next st1 heq =>
      rcases List.mem_cons.1 ho with rfl | ho2
      · have hres := @resolveListener_of_text reg id _ htxt
        have hmem : Effect.update o none (jsOfOptStr (getOverlay settings o).text) true
            ∈ st1.trace := by
          simp only [processOverlay, hres, htxt] at heq
          injection heq with heq
          subst heq
          simp [doTextBranch]
        obtain ⟨ex, h2⟩ := passAux_trace_mono h
        rw [h2]
        exact List.mem_append_left _ hmem
      · exact ih h o ho2 htxt

/-! ## Fractional digit counting for the formatter claims -/

theorem natDigitsPadded_length (n d : Nat) : (natDigitsPadded n d).length = d := by
  induction d generalizing n with
  | zero => rfl
  | succ d ih => simp [natDigitsPadded, ih]

theorem digit_char_ne_dot (k : Nat) (hk : k < 10) : Char.ofNat (48 + k) ≠ '.' := by
  interval_cases k <;> decide

theorem natDigitsPadded_ne_dot (n d : Nat) : ∀ c ∈ natDigitsPadded n d, c ≠ '.' := by
  induction d generalizing n with
  | zero => simp [natDigitsPadded]
  | succ d ih =>
    intro c hc
    simp only [natDigitsPadded] at hc
    rcases List.mem_append.1 hc with h1 | h1
    · exact ih (n / 10) c h1
    · simp only [List.mem_singleton] at h1
      subst h1
      exact digit_char_ne_dot (n % 10) (Nat.mod_lt _ (by omega))

theorem natDecCharsAux_ne_dot :
    ∀ (fuel n : Nat), ∀ c ∈ natDecCharsAux fuel n, c ≠ '.' := by
  intro fuel
  induction fuel with
  | zero => simp [natDecCharsAux]
  | succ fuel ih =>
    intro n c hc
    simp only [natDecCharsAux] at hc
    by_cases h10 : n < 10
    · rw [if_pos h10] at hc
      simp only [List.mem_singleton] at hc
      subst hc
      exact digit_char_ne_dot n h10
    · rw [if_neg h10] at hc
      rcases List.mem_append.1 hc with h1 | h1
      · exact ih (n / 10) c h1
      · simp only [List.mem_singleton] at h1
        subst h1
        exact digit_char_ne_dot (n % 10) (Nat.mod_lt _ (by omega))

theorem natDecChars_ne_dot (n : Nat) : ∀ c ∈ natDecChars n, c ≠ '.' :=
  natDecCharsAux_ne_dot (n + 1) n

theorem takeWhile_append_all {p : Char → Bool} (l : List Char) (x : Char) (r : List Char)
    (hl : ∀ c ∈ l, p c = true) (hx : p x = false) :
    (l ++ x :: r).takeWhile p = l := by
  induction l with
  | nil => simp [List.takeWhile_cons, hx]
  | cons a l ih =>
    have _ha := hl a (by simp)
    simp only [List.cons_append, List.takeWhile_cons, _ha, if_true]
    rw [ih (fun c hc => hl c (by simp [hc]))]

theorem fracLen_append_dot (a f : List Char)
    (hf : ∀ c ∈ f, c ≠ '.') : fracLen (a ++ '.' :: f) = some f.length := by
  unfold fracLen
  rw [if_pos (by simp)]
  congr 1
  rw [List.reverse_append, List.reverse_cons, List.append_assoc, List.singleton_append]
  rw [takeWhile_append_all f.reverse '.' a.reverse
    (fun c hc => by simpa using hf c (List.mem_reverse.1 hc)) (by simp)]
  simp

theorem ratToFixedChars_fracLen (q : ℚ) (d : Nat) (hd : 0 < d) :
    fracLen (ratToFixedChars q d) = some d := by
  unfold ratToFixedChars
  rw [if_neg (by omega)]
  rw [fracLen_append_dot _ _ (natDigitsPadded_ne_dot _ _)]
  rw [natDigitsPadded_length]

/-! ## Resolved listener of a bound-device slot -/

theorem resolveListener_device {reg : Registry} {id : String} {overlay : Overlay}
    {d : String} {dev : DeviceInfo}
    (hty : overlay.type = "Device") (hd : overlay.device = some d)
    (hreg : reg d = some dev)
    (hcap : "Thermometer" ∈ dev.interfaces ∨ "HumiditySensor" ∈ dev.interfaces) :
    resolveListener reg id overlay =
      ⟨some (desiredLt dev), some (desiredIfc dev), some d⟩ := by
  by_cases hT : "Thermometer" ∈ dev.interfaces
  · simp [resolveListener, hty, hd, getDeviceById, hreg, hT, desiredLt, desiredIfc]
  · rcases hcap with h | hH
    · exact absurd h hT
    · simp [resolveListener, hty, hd, getDeviceById, hreg, hT, hH, desiredLt, desiredIfc]

/-- Complete evaluation of a one-slot pass for a `Device` slot whose bound
device is found: the result depends only on the registry, the id, the bound
device and the recorded entry, never on `regex`, `maxDecimals` or `text`. -/
theorem device_slot_step (reg : Registry) (id : String) (settings : List Setting)
    (o d : String) (dev : DeviceInfo) (L : ListenersMap) (n : Nat)
    (hty : (getOverlay settings o).type = "Device")
    (hd : (getOverlay settings o).device = some d)
    (hne : d ≠ "")
    (hreg : reg d = some dev)
    (hcap : "Thermometer" ∈ dev.interfaces ∨ "HumiditySensor" ∈ dev.interfaces) :
    listenersIntevalFn reg [o] settings id L n =
      .ok (if differentTypeB (lookupL L o) (some (desiredLt dev)) ||
            decide ((lookupL L o).bind (fun c => c.device) ≠ some d)
        then ⟨insertL L o ⟨desiredLt dev, some d, n⟩, n + 1,
          [.log (startMsg o dev.name (ltStr (desiredLt dev)) (desiredIfc dev))] ++
          (match lookupL L o with
            | some c => [Effect.release o c.listener]
            | none => []) ++
          [.subscribe o d (desiredIfc dev) n,
           .update o (some (desiredLt dev)) (desiredData dev) false]⟩
        else ⟨L, n, []⟩) := by
  have hrl := @resolveListener_device reg id _ _ _ hty hd hreg hcap
  have hlog : logNotFound reg (getOverlay settings o) ⟨L, n, []⟩ = ⟨L, n, []⟩ := by
    simp [logNotFound, hd, getDeviceById, hreg]
  have hifc : desiredIfc dev ≠ "" := by
    unfold desiredIfc; split <;> decide
  have hguard : subGuard reg id settings o (lookupL L o) =
      (differentTypeB (lookupL L o) (some (desiredLt dev)) ||
        decide ((lookupL L o).bind (fun c => c.device) ≠ some d)) := by
    simp only [subGuard, hrl, differentDeviceB, hty, hd]
    simp [truthyOpt, hne, hifc]
  simp only [listenersIntevalFn, passAux, processOverlay, hrl, hlog]
  by_cases hg : (differentTypeB (lookupL L o) (some (desiredLt dev)) ||
      decide ((lookupL L o).bind (fun c => c.device) ≠ some d)) = true
  · rw [hguard, if_pos hg, hg, if_pos rfl]
    simp only [getDeviceById, hreg]
    simp only [doSubscribe, Option.getD_some]
    by_cases hT : "Thermometer" ∈ dev.interfaces
    · simp [desiredIfc, desiredLt, desiredData, hT, hd, List.append_assoc]
    · simp [desiredIfc, desiredLt, desiredData, hT, hd, List.append_assoc]
  · rw [hguard, if_neg hg]
    simp only [Bool.not_eq_true] at hg
    rw [hg]
    simp

/-! ## Claims about the overlay model and the formatter -/

theorem finishParse_ok {overlay : Overlay} (hregex : overlay.regex.isSome = true)
    (v u : Option String) : ∃ r, finishParse overlay v u = .ok r := by
  unfold finishParse
  split
  · obtain ⟨r, hr⟩ := Option.isSome_iff_exists.1 hregex
    rw [hr]
    exact ⟨_, rfl⟩
  · exact ⟨_, rfl⟩

theorem toIntDigits_natCast (d : Nat) :
    toIntDigits (some (.fin ((d : Nat) : ℚ))) = (d : Int) := by
  simp [toIntDigits, Rat.num_natCast, Rat.den_natCast]

theorem jsToFixed_ok_of_inRange (v : JsNum) (digits : Option JsNum)
    (h : ¬ (toIntDigits digits < 0 ∨ 100 < toIntDigits digits)) :
    ∃ s, jsToFixed v digits = .ok s := by
  unfold jsToFixed
  rw [if_neg h]
  cases v with
  | nan => exact ⟨_, rfl⟩
  | fin q =>
    dsimp only
    by_cases h21 : bigMagnitude q = true
    · rw [if_pos h21]; exact ⟨_, rfl⟩
    · rw [if_neg h21]; exact ⟨_, rfl⟩

theorem jsToFixed_error_of_outRange (v : JsNum) (digits : Option JsNum)
    (h : toIntDigits digits < 0 ∨ 100 < toIntDigits digits) :
    jsToFixed v digits = .error rangeErrMsg := by
  unfold jsToFixed
  rw [if_pos h]

/-- C7 counterexample: resolving a slot from an empty settings snapshot leaves
the template and maxDecimals `undefined` (`none`); `getOverlay` does not apply
the documented defaults for them (it only defaults the type to Text). -/
theorem getOverlay_missing_defaults_cex :
    getOverlay [] "1" = ⟨none, "Text", none, none, none⟩ ∧
    (getOverlay [] "1").regex ≠ some defaultTemplate ∧
    (getOverlay [] "1").maxDecimals ≠ some (.fin 1) :=
  ⟨rfl, by decide, by decide⟩

/-- C7 (amended): of the three documented defaults, `getOverlay` itself
applies only `type = Text` (when the namespaced type setting is absent); the
`regex` default `$\x7bvalue\x7d $\x7bunit\x7d` and the `maxDecimals` default 1
are instead applied by `getOverlaySettings` when it builds the settings list
for a slot of resolved type `Device` whose stored values are missing. -/
theorem overlay_defaults_split (overlayId : String) :
    (∀ settings : List Setting,
      settingsByKey settings (osdManagerNs ++ ":" ++ (getOverlayKeys overlayId).typeKey)
        = none →
      (getOverlay settings overlayId).type = "Text") ∧
    (∀ storage : String → Option JsVal,
      jsValAsTypeStr (storage (getOverlayKeys overlayId).typeKey) = "Device" →
      storage (getOverlayKeys overlayId).regexKey = none →
      storage (getOverlayKeys overlayId).maxDecimalsKey = none →
      (⟨(getOverlayKeys overlayId).regexKey, .str defaultTemplate⟩ : Setting)
          ∈ getOverlaySettings storage [overlayId] ∧
      (⟨(getOverlayKeys overlayId).maxDecimalsKey, .num (.fin 1)⟩ : Setting)
          ∈ getOverlaySettings storage [overlayId]) := by
  constructor
  · intro settings h
    simp [getOverlay, h, jsValAsTypeStr]
  · intro storage hty hr hm
    simp only [getOverlaySettings, List.foldl_cons, List.foldl_nil]
    rw [hty, hr, hm]
    simp

/-- Witness for the amended C7 at a concrete storage snapshot. -/
theorem overlay_defaults_split_witness :
    (getOverlay [] "w7").type = "Text" ∧
    (⟨(getOverlayKeys "w7").regexKey, .str defaultTemplate⟩ : Setting)
        ∈ getOverlaySettings
          (fun k => if k = "overlay:w7:type" then some (.str "Device") else none) ["w7"] ∧
    (⟨(getOverlayKeys "w7").maxDecimalsKey, .num (.fin 1)⟩ : Setting)
        ∈ getOverlaySettings
          (fun k => if k = "overlay:w7:type" then some (.str "Device") else none) ["w7"] := by
  obtain ⟨h1, h2⟩ := overlay_defaults_split "w7"
  refine ⟨h1 [] rfl, ?_, ?_⟩
  · exact (h2 _ (by decide) (by decide) (by decide)).1
  · exact (h2 _ (by decide) (by decide) (by decide)).2

/-- C8 counterexample: a raw value coercing to NaN is not treated as 0 — the
formatter renders the literal string NaN into the template ("NaN %"), instead
of the "0.0 %" that treating NaN as 0 would produce. -/
theorem nan_not_treated_as_zero_cex :
    parseOverlayData (fun _ => none) .Humidity (.str "abc")
        ⟨none, "Device", none, some defaultTemplate, some (.fin 1)⟩ = .ok (some "NaN %") ∧
    (some "NaN %" : Option String) ≠ some "0.0 %" :=
  ⟨rfl, by decide⟩

/-- C8 (amended): formatting for Temperature/Humidity is a pure function of
the raw value and maxDecimals; a missing (`undefined`) raw value is coerced
to 0; a finite value of magnitude below 1e21 with in-range digits is printed
fixed-point with exactly that many fractional digits; but it is not total and
NaN is not treated as 0: the digits argument throws a RangeError outside
0..100 (so an out-of-range maxDecimals raises even for raw value 0), a
magnitude of at least 1e21 falls back to exponential `ToString` output with
no fixed fraction, and a NaN coercion is rendered as the literal string NaN,
which is truthy and is substituted into the template. -/
theorem numeric_format_amended :
    jsNumberCoerce .undef = .fin 0 ∧
    numericValue (.str "abc") (some (.fin 1)) = .ok "NaN" ∧
    (∀ (q : ℚ) (d : Nat), 0 < d → d ≤ 100 → bigMagnitude q = false →
      jsToFixed (.fin q) (some (.fin ((d : Nat) : ℚ))) =
        .ok (String.mk (ratToFixedChars q d)) ∧
      fracLen (ratToFixedChars q d) = some d) ∧
    (∀ (v : JsNum) (digits : Option JsNum),
      toIntDigits digits < 0 ∨ 100 < toIntDigits digits →
      jsToFixed v digits = .error rangeErrMsg) ∧
    (∀ (q : ℚ) (digits : Option JsNum),
      ¬ (toIntDigits digits < 0 ∨ 100 < toIntDigits digits) →
      bigMagnitude q = true →
      jsToFixed (.fin q) digits = .ok (jsNumToString q)) ∧
    (∀ (reg : Registry) (data : JsVal) (overlay : Overlay),
      overlay.regex.isSome →
      ¬ (toIntDigits overlay.maxDecimals < 0 ∨ 100 < toIntDigits overlay.maxDecimals) →
      ∃ r, parseOverlayData reg .Humidity data overlay = .ok r) := by
  refine ⟨rfl, rfl, ?_, ?_, ?_, ?_⟩
  · intro q d hd hd2 hbig
    have hf : toIntDigits (some (.fin ((d : Nat) : ℚ))) = (d : Int) := toIntDigits_natCast d
    have hrange : ¬ (toIntDigits (some (.fin ((d : Nat) : ℚ))) < 0 ∨
        100 < toIntDigits (some (.fin ((d : Nat) : ℚ)))) := by
      rw [hf]; omega
    refine ⟨?_, ratToFixedChars_fracLen q d hd⟩
    simp only [jsToFixed, hrange, if_false, hbig, Bool.false_eq_true, hf,
      Int.toNat_natCast]
    rw [if_neg (by omega)]
  · intro v digits h
    simp only [jsToFixed, h, if_true]
  · intro q digits hrange hbig
    simp only [jsToFixed, hrange, if_false, hbig, if_true]
  · intro reg data overlay hregex hrange
    obtain ⟨s, hs⟩ := jsToFixed_ok_of_inRange (jsNumberCoerce data)
      overlay.maxDecimals hrange
    simp only [parseOverlayData, numericValue, hs]
    exact finishParse_ok hregex _ _

/-- Witness for the amended C8 at concrete inputs: in-range fixed-point
printing with the exact digit count, the RangeError at 101 digits, and a
total Humidity formatting instance. -/
theorem numeric_format_amended_witness :
    (jsToFixed (.fin ((43 : Nat) : ℚ)) (some (.fin ((2 : Nat) : ℚ))) =
        .ok (String.mk (ratToFixedChars ((43 : Nat) : ℚ) 2)) ∧
      fracLen (ratToFixedChars ((43 : Nat) : ℚ) 2) = some 2) ∧
    jsToFixed (.fin 0) (some (.fin 101)) = .error rangeErrMsg ∧
    (∃ r, parseOverlayData (fun _ => none) .Humidity (.num (.fin 55))
        ⟨none, "Device", none, some defaultTemplate, none⟩ = .ok r) := by
  obtain ⟨-, -, h3, h4, -, h6⟩ := numeric_format_amended
  exact ⟨h3 ((43 : Nat) : ℚ) 2 (by decide) (by decide) (by decide),
    h4 (.fin 0) (some (.fin 101)) (by decide),
    h6 _ (.num (.fin 55)) ⟨none, "Device", none, some defaultTemplate, none⟩ rfl
      (by decide)⟩

/-- C9 counterexample: a detection event that does contain a face detection,
but whose label is the empty string, is formatted to the unchanged static
text — the template is not applied (the claim predicts the template with the
empty label substituted, i.e. ""). -/
theorem face_empty_label_cex :
    parseOverlayData (fun _ => none) .Face (.dets [⟨"face", some ""⟩])
        ⟨some "Static", "FaceDetection", none, some valueToken, none⟩
      = .ok (some "Static") ∧
    (some "Static" : Option String) ≠ some "" :=
  ⟨rfl, by decide⟩

/-- C9 (amended): with no detection classified as face the template is not
applied and the unchanged slot text is returned; the same happens when the
first face detection has a missing or empty label (JavaScript truthiness);
only a face detection with a nonempty label applies the template, with the
value placeholder replaced by the label and the unit placeholder by "". -/
theorem face_format_amended :
    (∀ (reg : Registry) (l : List Detection) (overlay : Overlay),
      l.find? (fun det => det.className == "face") = none →
      parseOverlayData reg .Face (.dets l) overlay = .ok overlay.text) ∧
    (∀ (reg : Registry) (l : List Detection) (det : Detection) (overlay : Overlay),
      l.find? (fun det => det.className == "face") = some det →
      (det.label = none ∨ det.label = some "") →
      parseOverlayData reg .Face (.dets l) overlay = .ok overlay.text) ∧
    (∀ (reg : Registry) (l : List Detection) (det : Detection) (overlay : Overlay)
      (r lbl : String),
      l.find? (fun det => det.className == "face") = some det →
      det.label = some lbl → lbl ≠ "" → overlay.regex = some r →
      parseOverlayData reg .Face (.dets l) overlay =
        .ok (some (applyTemplate r lbl ""))) := by
  refine ⟨?_, ?_, ?_⟩
  · intro reg l overlay hf
    simp [parseOverlayData, faceValue, hf, finishParse, truthyOpt]
  · intro reg l det overlay hf hl
    rcases hl with hl | hl <;>
      simp [parseOverlayData, faceValue, hf, hl, finishParse, truthyOpt]
  · intro reg l det overlay r lbl hf hl hne hregex
    simp [parseOverlayData, faceValue, hf, hl, finishParse, truthyOpt, hne, hregex]

/-- Witness for the amended C9 at concrete inputs. -/
theorem face_format_amended_witness :
    parseOverlayData (fun _ => none) .Face (.dets [])
        ⟨some "W9", "FaceDetection", none, some valueToken, none⟩ = .ok (some "W9") ∧
    parseOverlayData (fun _ => none) .Face (.dets [⟨"face", some "Alice"⟩])
        ⟨some "W9", "FaceDetection", none, some valueToken, none⟩ =
      .ok (some (applyTemplate valueToken "Alice" "")) := by
  obtain ⟨h1, -, h3⟩ := face_format_amended
  exact ⟨h1 _ [] _ rfl,
    h3 _ [⟨"face", some "Alice"⟩] ⟨"face", some "Alice"⟩ _ valueToken "Alice" rfl rfl
      (by decide) rfl⟩

/-! ## Claims about the reconciler -/

/-- C3 counterexample: the slot resolves to no listener kind (device not
found) and a current binding exists, yet the pass emits no release, leaves
the entry in the map, and only logs — it neither releases nor clears. -/
theorem none_kind_not_released_cex :
    (resolveListener c3Reg "cam" (getOverlay c3Settings "3")).listenerType = none ∧
    lookupL c3Map "3" = some ⟨.Temperature, some "devGone", 5⟩ ∧
    listenersIntevalFn c3Reg ["3"] c3Settings "cam" c3Map 6 =
      .ok ⟨c3Map, 6, [.log "Device devGone not found"]⟩ :=
  ⟨rfl, rfl, rfl⟩

/-- C3 (amended): when the desired kind is none, the release and the static
text push happen only for slots whose resolved overlay type is Text; the
entry is never removed from the listeners map in any case, and for a
non-Text slot (device not found, or no capability) nothing is released at
all — the pass at most logs. -/
theorem none_kind_amended (reg : Registry) (id : String) (settings : List Setting)
    (o : String) (L : ListenersMap) (n : Nat) (cl : ListenerEntry)
    (hres : (resolveListener reg id (getOverlay settings o)).listenerType = none)
    (hcl : lookupL L o = some cl) :
    ∃ st2, listenersIntevalFn reg [o] settings id L n = .ok st2 ∧
      st2.listeners = L ∧
      ((getOverlay settings o).type = "Text" →
        st2.trace = [.release o cl.listener,
          .update o none (jsOfOptStr (getOverlay settings o).text) true]) ∧
      ((getOverlay settings o).type ≠ "Text" →
        ∀ e ∈ st2.trace, ∃ m, e = Effect.log m) := by
  by_cases htxt : (getOverlay settings o).type = "Text"
  · have hlog : logNotFound reg (getOverlay settings o) (⟨L, n, []⟩ : PassState) =
        ⟨L, n, []⟩ := by
      simp [logNotFound, htxt]
    refine ⟨⟨L, n, [.release o cl.listener,
      .update o none (jsOfOptStr (getOverlay settings o).text) true]⟩, ?_, rfl,
      fun _ => rfl, fun hn => absurd htxt hn⟩
    simp [listenersIntevalFn, passAux, processOverlay, hres, htxt, hlog,
      doTextBranch, hcl]
  · obtain ⟨ex0, heq, hlogs⟩ := logNotFound_eq reg (getOverlay settings o)
      (⟨L, n, []⟩ : PassState)
    refine ⟨⟨L, n, [] ++ ex0⟩, ?_, rfl, fun h => absurd h htxt, fun _ e he => ?_⟩
    · simp only [listenersIntevalFn, passAux, processOverlay, hres, heq]
      simp [htxt]
    · exact hlogs e (by simpa using he)

/-- Witness for the amended C3 at a concrete Text slot with a stale binding. -/
theorem none_kind_amended_witness :
    ∃ st2, listenersIntevalFn (fun _ => none) ["w3"] w3Settings "cam" w3Map 3 = .ok st2 ∧
      st2.listeners = w3Map ∧
      ((getOverlay w3Settings "w3").type = "Text" →
        st2.trace = [.release "w3" 2,
          .update "w3" none (jsOfOptStr (getOverlay w3Settings "w3").text) true]) ∧
      ((getOverlay w3Settings "w3").type ≠ "Text" →
        ∀ e ∈ st2.trace, ∃ m, e = Effect.log m) :=
  none_kind_amended (fun _ => none) "cam" w3Settings "w3" w3Map 3 ⟨.Face, none, 2⟩ rfl rfl

/-- C4: when a bound-device slot with a recorded binding for device A is
reconciled against settings binding it to a different, resolvable device B,
the one-slot pass emits exactly the four effects below — in particular
exactly one release (of the recorded handle) and exactly one subscribe (to
B), with the release strictly before the subscribe, and the new binding
(kind, B, fresh handle) is stored.  At no point does the trace hold two
live subscriptions for the slot. -/
theorem device_change_one_release_one_subscribe
    (reg : Registry) (id : String) (settings : List Setting) (o dA dB : String)
    (devB : DeviceInfo) (L : ListenersMap) (n : Nat) (cl : ListenerEntry)
    (hty : (getOverlay settings o).type = "Device")
    (hd : (getOverlay settings o).device = some dB)
    (hne : dB ≠ "")
    (hreg : reg dB = some devB)
    (hT : "Thermometer" ∈ devB.interfaces)
    (hcl : lookupL L o = some cl)
    (hclDev : cl.device = some dA)
    (hAB : dA ≠ dB) :
    ∃ st2, listenersIntevalFn reg [o] settings id L n = .ok st2 ∧
      st2.trace = [.log (startMsg o devB.name "Temperature" "Thermometer"),
        .release o cl.listener,
        .subscribe o dB "Thermometer" n,
        .update o (some .Temperature) devB.temperature false] ∧
      lookupL st2.listeners o = some ⟨.Temperature, some dB, n⟩ := by
  have hstep := device_slot_step reg id settings o dB devB L n hty hd hne hreg (.inl hT)
  have hg : (differentTypeB (lookupL L o) (some (desiredLt devB)) ||
      decide ((lookupL L o).bind (fun c => c.device) ≠ some dB)) = true := by
    simp [hcl, hclDev, hAB]
  rw [hg, if_pos rfl] at hstep
  refine ⟨_, hstep, ?_, ?_⟩
  · simp [desiredLt, desiredIfc, desiredData, hT, hcl, ltStr]
  · rw [lookupL_insertL_self]
    simp [desiredLt, hT]

/-- Witness for C4 at a concrete device change devA4 to devB4. -/
theorem device_change_one_release_one_subscribe_witness :
    ∃ st2, listenersIntevalFn w4Reg ["w4"] w4Settings "cam" w4Map 1 = .ok st2 ∧
      st2.trace = [.log (startMsg "w4" "B4" "Temperature" "Thermometer"),
        .release "w4" 0,
        .subscribe "w4" "devB4" "Thermometer" 1,
        .update "w4" (some .Temperature) (.num (.fin 25)) false] ∧
      lookupL st2.listeners "w4" = some ⟨.Temperature, some "devB4", 1⟩ :=
  device_change_one_release_one_subscribe w4Reg "cam" w4Settings "w4" "devA4" "devB4"
    ⟨"B4", ["Thermometer"], .num (.fin 25), .undef, "F"⟩ w4Map 1
    ⟨.Temperature, some "devA4", 0⟩ rfl rfl (by decide) rfl (by decide) rfl rfl (by decide)

/-- C6: whenever the pass opens a new Temperature or Humidity subscription
(the subscribe guard fires for a resolvable bound device), the trace shows,
immediately after the subscribe, an update push carrying the current reading
of the device (its temperature for Thermometer, its humidity for
HumiditySensor), all within the same pass, and the new handle together with
the bound device id is stored as the current binding. -/
theorem subscribe_pushes_current_value
    (reg : Registry) (id : String) (settings : List Setting) (o d : String)
    (dev : DeviceInfo) (L : ListenersMap) (n : Nat)
    (hty : (getOverlay settings o).type = "Device")
    (hd : (getOverlay settings o).device = some d)
    (hne : d ≠ "")
    (hreg : reg d = some dev)
    (hcap : "Thermometer" ∈ dev.interfaces ∨ "HumiditySensor" ∈ dev.interfaces)
    (hg : (differentTypeB (lookupL L o) (some (desiredLt dev)) ||
      decide ((lookupL L o).bind (fun c => c.device) ≠ some d)) = true) :
    ∃ st2, listenersIntevalFn reg [o] settings id L n = .ok st2 ∧
      st2.trace = [.log (startMsg o dev.name (ltStr (desiredLt dev)) (desiredIfc dev))] ++
        (match lookupL L o with
          | some c => [Effect.release o c.listener]
          | none => []) ++
        [.subscribe o d (desiredIfc dev) n,
         .update o (some (desiredLt dev)) (desiredData dev) false] ∧
      lookupL st2.listeners o = some ⟨desiredLt dev, some d, n⟩ := by
  have hstep := device_slot_step reg id settings o d dev L n hty hd hne hreg hcap
  rw [hg, if_pos rfl] at hstep
  exact ⟨_, hstep, rfl, lookupL_insertL_self _ _ _⟩

/-- Witness for C6: a fresh humidity subscription pushes the current
humidity reading right after subscribing. -/
theorem subscribe_pushes_current_value_witness :
    ∃ st2, listenersIntevalFn w6Reg ["w6"] w6Settings "cam" [] 0 = .ok st2 ∧
      st2.trace = [.log (startMsg "w6" "H6"
          (ltStr (desiredLt ⟨"H6", ["HumiditySensor"], .undef, .num (.fin 55), ""⟩))
          (desiredIfc ⟨"H6", ["HumiditySensor"], .undef, .num (.fin 55), ""⟩))] ++
        (match lookupL [] "w6" with
          | some c => [Effect.release "w6" c.listener]
          | none => []) ++
        [.subscribe "w6" "hum6"
           (desiredIfc ⟨"H6", ["HumiditySensor"], .undef, .num (.fin 55), ""⟩) 0,
         .update "w6"
           (some (desiredLt ⟨"H6", ["HumiditySensor"], .undef, .num (.fin 55), ""⟩))
           (desiredData ⟨"H6", ["HumiditySensor"], .undef, .num (.fin 55), ""⟩) false] ∧
      lookupL st2.listeners "w6" =
        some ⟨desiredLt ⟨"H6", ["HumiditySensor"], .undef, .num (.fin 55), ""⟩,
          some "hum6", 0⟩ :=
  subscribe_pushes_current_value w6Reg "cam" w6Settings "w6" "hum6"
    ⟨"H6", ["HumiditySensor"], .undef, .num (.fin 55), ""⟩ [] 0
    rfl rfl (by decide) rfl (.inr (by decide)) (by decide)

/-- C2: for a Device slot with a recorded binding whose bound device resolves
to a kind, the one-slot pass both releases the old handle and opens a new
subscription if and only if the resolved kind differs from the recorded kind
or the bound device id differs from the recorded device id.  The condition —
and indeed the whole pass result — depends only on the overlay type and
device: any settings agreeing on those two fields (differing in template,
maxDecimals or text) give the identical pass, so changing only maxDecimals
or the template triggers no release and no subscribe. -/
theorem bound_device_resub_iff
    (reg : Registry) (id : String) (settings : List Setting) (o d : String)
    (dev : DeviceInfo) (L : ListenersMap) (n : Nat) (cl : ListenerEntry)
    (hty : (getOverlay settings o).type = "Device")
    (hd : (getOverlay settings o).device = some d)
    (hne : d ≠ "")
    (hreg : reg d = some dev)
    (hcap : "Thermometer" ∈ dev.interfaces ∨ "HumiditySensor" ∈ dev.interfaces)
    (hcl : lookupL L o = some cl) :
    ∃ st2, listenersIntevalFn reg [o] settings id L n = .ok st2 ∧
      (((∃ hh, Effect.release o hh ∈ st2.trace) ∧
        (∃ hh ifc, Effect.subscribe o d ifc hh ∈ st2.trace)) ↔
        (cl.listenerType ≠ desiredLt dev ∨ cl.device ≠ some d)) ∧
      (∀ settings2 : List Setting, (getOverlay settings2 o).type = "Device" →
        (getOverlay settings2 o).device = some d →
        listenersIntevalFn reg [o] settings2 id L n =
          listenersIntevalFn reg [o] settings id L n) := by
  have hstep := device_slot_step reg id settings o d dev L n hty hd hne hreg hcap
  have hbool : (differentTypeB (lookupL L o) (some (desiredLt dev)) ||
      decide ((lookupL L o).bind (fun c => c.device) ≠ some d)) =
      decide (cl.listenerType ≠ desiredLt dev ∨ cl.device ≠ some d) := by
    simp [hcl, differentTypeB, Bool.decide_or]
  by_cases hS : cl.listenerType ≠ desiredLt dev ∨ cl.device ≠ some d
  · have hg : (differentTypeB (lookupL L o) (some (desiredLt dev)) ||
        decide ((lookupL L o).bind (fun c => c.device) ≠ some d)) = true := by
      rw [hbool]; exact decide_eq_true hS
    rw [hg, if_pos rfl] at hstep
    refine ⟨_, hstep, ?_, ?_⟩
    · constructor
      · intro _; exact hS
      · intro _
        refine ⟨⟨cl.listener, ?_⟩, ⟨n, desiredIfc dev, ?_⟩⟩ <;> simp [hcl]
    · intro s2 hty2 hd2
      rw [device_slot_step reg id s2 o d dev L n hty2 hd2 hne hreg hcap, hstep,
        hg, if_pos rfl]
  · have hg : (differentTypeB (lookupL L o) (some (desiredLt dev)) ||
        decide ((lookupL L o).bind (fun c => c.device) ≠ some d)) = false := by
      rw [hbool]; exact decide_eq_false hS
    rw [hg, if_neg (by simp)] at hstep
    refine ⟨_, hstep, ?_, ?_⟩
    · constructor
      · rintro ⟨⟨hh, hmem⟩, -⟩
        simp at hmem
      · intro h; exact absurd h hS
    · intro s2 hty2 hd2
      rw [device_slot_step reg id s2 o d dev L n hty2 hd2 hne hreg hcap, hstep,
        hg, if_neg (by simp)]

/-- Witness for C2: a matching binding, so the iff is false on both sides,
and a template-only change yields the identical pass. -/
theorem bound_device_resub_iff_witness :
    ∃ st2, listenersIntevalFn w2Reg ["w2"] w2Settings "cam" w2Map 5 = .ok st2 ∧
      (((∃ hh, Effect.release "w2" hh ∈ st2.trace) ∧
        (∃ hh ifc, Effect.subscribe "w2" "devW2" ifc hh ∈ st2.trace)) ↔
        ((⟨.Temperature, some "devW2", 4⟩ : ListenerEntry).listenerType ≠
            desiredLt ⟨"W2", ["Thermometer"], .num (.fin 19), .undef, "C"⟩ ∨
          (⟨.Temperature, some "devW2", 4⟩ : ListenerEntry).device ≠ some "devW2")) ∧
      (∀ settings2 : List Setting, (getOverlay settings2 "w2").type = "Device" →
        (getOverlay settings2 "w2").device = some "devW2" →
        listenersIntevalFn w2Reg ["w2"] settings2 "cam" w2Map 5 =
          listenersIntevalFn w2Reg ["w2"] w2Settings "cam" w2Map 5) :=
  bound_device_resub_iff w2Reg "cam" w2Settings "w2" "devW2"
    ⟨"W2", ["Thermometer"], .num (.fin 19), .undef, "C"⟩ w2Map 5
    ⟨.Temperature, some "devW2", 4⟩ rfl rfl (by decide) rfl (.inl (by decide)) rfl

/-- C10: for every overlay slot whose resolved type is Text, every successful
reconciliation pass containing that slot pushes the static text with the
no-log flag — unconditionally, with no dependence on the previous listeners
state or on whether anything changed. -/
theorem text_slot_pushed_every_pass
    (reg : Registry) (overlayIds : List String) (settings : List Setting)
    (id : String) (L : ListenersMap) (n : Nat) (st2 : PassState) (o : String)
    (h : listenersIntevalFn reg overlayIds settings id L n = .ok st2)
    (ho : o ∈ overlayIds) (hty : (getOverlay settings o).type = "Text") :
    Effect.update o none (jsOfOptStr (getOverlay settings o).text) true ∈ st2.trace := by
  have hp : passAux reg id settings ⟨L, n, []⟩ overlayIds = .ok st2 := h
  exact passAux_text_update hp o ho hty

/-- Witness for C10 at a concrete pass with unchanged state. -/
theorem text_slot_pushed_every_pass_witness :
    Effect.update "w10" none (jsOfOptStr (getOverlay w10Settings "w10").text) true ∈
      (⟨[], 0, [Effect.update "w10" none (.str "W10") true]⟩ : PassState).trace :=
  text_slot_pushed_every_pass (fun _ => none) ["w10"] w10Settings "cam" [] 0
    ⟨[], 0, [Effect.update "w10" none (.str "W10") true]⟩ "w10" rfl
    (List.mem_singleton.2 rfl) rfl

/-- C1 counterexample: starting from the reachable state in which overlay 1
is still recorded as subscribed (first conjunct) but its settings now say
Text, a pass releases the stale handle yet maps the listeners map and the
handle counter to themselves (second conjunct) — so the second pass with
unchanged settings is the very same application and again performs one
release (third conjunct), not zero, because the entry is never cleared. -/
theorem second_pass_rerelease_cex :
    listenersIntevalFn c1Reg ["1"] c1DevSettings "cam" [] 0 = .ok c1FirstPass ∧
    listenersIntevalFn c1Reg ["1"] c1TextSettings "cam"
        c1FirstPass.listeners c1FirstPass.nextHandle =
      .ok ⟨c1FirstPass.listeners, 1,
        [.release "1" 0, .update "1" none (.str "Hello") true]⟩ ∧
    List.count (Effect.release "1" 0)
        [Effect.release "1" 0, Effect.update "1" none (.str "Hello") true] = 1 :=
  ⟨rfl, rfl, by decide⟩

/-- C1 (amended): a second pass with unchanged settings, registry and
overlayIds performs zero subscribe calls and leaves the listeners map
unchanged; every effect it emits is quiet — a log, an update push, or a
release for a slot whose resolved type is Text (such a stale Text-slot
release repeats on every pass because the entry is never removed).  For
passes without Text-releases this is exactly the claimed idempotence. -/
theorem second_pass_emits_no_subscribe
    (reg : Registry) (overlayIds : List String) (settings : List Setting)
    (id : String) (L : ListenersMap) (n : Nat) (st1 : PassState)
    (h1 : listenersIntevalFn reg overlayIds settings id L n = .ok st1) :
    ∃ st2, listenersIntevalFn reg overlayIds settings id
        st1.listeners st1.nextHandle = .ok st2 ∧
      st2.listeners = st1.listeners ∧
      ∀ e ∈ st2.trace, quietEffect settings e := by
  have h1p : passAux reg id settings ⟨L, n, []⟩ overlayIds = .ok st1 := h1
  have hall := passAux_all_converged h1p
  have hall2 : ∀ o ∈ overlayIds, converged reg id settings o
      ((⟨st1.listeners, st1.nextHandle, []⟩ : PassState)).listeners :=
    fun o ho => hall o ho
  obtain ⟨st2, hpass, hl, hn, ex, htr, hq⟩ := passAux_converged_quiet hall2
  refine ⟨st2, hpass, by simpa using hl, ?_⟩
  intro e he
  rw [htr] at he
  exact hq e (by simpa using he)

/-- Witness for the amended C1: after the concrete first pass, the second
pass is quiet. -/
theorem second_pass_emits_no_subscribe_witness :
    ∃ st2, listenersIntevalFn c1Reg ["1"] c1DevSettings "cam"
        c1FirstPass.listeners c1FirstPass.nextHandle = .ok st2 ∧
      st2.listeners = c1FirstPass.listeners ∧
      ∀ e ∈ st2.trace, quietEffect c1DevSettings e :=
  second_pass_emits_no_subscribe c1Reg ["1"] c1DevSettings "cam" [] 0 c1FirstPass rfl

/-- C5 counterexample: the FaceDetection slot throws (its host id is looked
up only at subscribe time, line 204-205 of the source, with no try/catch),
the whole pass aborts as an error — slot 2 is never processed — and
`parseOverlayData` itself throws for a Temperature slot with no resolvable
device. -/
theorem pass_exception_propagates_cex :
    listenersIntevalFn c5Reg ["1", "2"] c5Settings "cam" [] 0 =
      .error "TypeError: name of undefined" ∧
    parseOverlayData c5Reg .Temperature (.num (.fin 21))
        ⟨some "t", "Device", none, some "x", some (.fin 1)⟩ =
      .error "TypeError: temperatureUnit of undefined" :=
  ⟨rfl, rfl⟩

/-- C5 (amended): exceptions are not isolated per slot, but they can only
arise from an unresolvable host id (FaceDetection subscribe), from a
maxDecimals outside 0..100 (toFixed throws a RangeError for Temperature and
Humidity, even with a template and device present), or from formatting with
a missing device or template.  When the host id resolves, no reconciliation
pass ever throws, whatever the settings and state; `parseOverlayData` never
throws when the overlay has a template, an in-range maxDecimals and — for
Temperature — a resolvable nonempty device id; and it always throws the
RangeError for Temperature/Humidity when maxDecimals is out of range. -/
theorem reconcile_throws_amended (reg : Registry) (id : String)
    (hid : (reg id).isSome) :
    (∀ (overlayIds : List String) (settings : List Setting) (L : ListenersMap)
      (n : Nat), ∃ st2, listenersIntevalFn reg overlayIds settings id L n = .ok st2) ∧
    (∀ (lt : LType) (data : JsVal) (overlay : Overlay),
      overlay.regex.isSome →
      ¬ (toIntDigits overlay.maxDecimals < 0 ∨ 100 < toIntDigits overlay.maxDecimals) →
      (lt = .Temperature → ∃ d dev, overlay.device = some d ∧ d ≠ "" ∧ reg d = some dev) →
      ∃ r, parseOverlayData reg lt data overlay = .ok r) ∧
    (∀ (lt : LType) (data : JsVal) (overlay : Overlay),
      lt = .Temperature ∨ lt = .Humidity →
      toIntDigits overlay.maxDecimals < 0 ∨ 100 < toIntDigits overlay.maxDecimals →
      parseOverlayData reg lt data overlay = .error rangeErrMsg) := by
  refine ⟨?_, ?_, ?_⟩
  · intro overlayIds settings L n
    exact passAux_ok_total hid
  · intro lt data overlay hregex hrange hdev
    cases lt with
    | Face =>
      simp only [parseOverlayData]
      exact finishParse_ok hregex _ _
    | Humidity =>
      obtain ⟨s, hs⟩ := jsToFixed_ok_of_inRange (jsNumberCoerce data)
        overlay.maxDecimals hrange
      simp only [parseOverlayData, numericValue, hs]
      exact finishParse_ok hregex _ _
    | Temperature =>
      obtain ⟨d, dev, hd, hne, hreg⟩ := hdev rfl
      have hbeq : (d == "") = false := by simpa using hne
      obtain ⟨s, hs⟩ := jsToFixed_ok_of_inRange (jsNumberCoerce data)
        overlay.maxDecimals hrange
      simp only [parseOverlayData, numericValue, hs, hd, hbeq, Bool.false_eq_true,
        if_false, hreg]
      exact finishParse_ok hregex _ _
  · intro lt data overlay hlt hrange
    have hs := jsToFixed_error_of_outRange (jsNumberCoerce data)
      overlay.maxDecimals hrange
    rcases hlt with rfl | rfl <;>
      simp only [parseOverlayData, numericValue, hs]

/-- Witness for the amended C5 at a concrete host and overlay: the pass never
throws, an in-range Temperature slot formats, and maxDecimals 101 raises the
RangeError. -/
theorem reconcile_throws_amended_witness :
    (∃ st2, listenersIntevalFn w5Reg ["w5"] [] "cam5" [] 0 = .ok st2) ∧
    (∃ r, parseOverlayData w5Reg .Temperature (.num (.fin 20))
      ⟨none, "Device", some "cam5", some "t", none⟩ = .ok r) ∧
    parseOverlayData w5Reg .Humidity (.num (.fin 20))
      ⟨none, "Device", none, some "t", some (.fin 101)⟩ = .error rangeErrMsg := by
  obtain ⟨h1, h2, h3⟩ := reconcile_throws_amended w5Reg "cam5" rfl
  exact ⟨h1 ["w5"] [] [] 0,
    h2 .Temperature (.num (.fin 20)) ⟨none, "Device", some "cam5", some "t", none⟩ rfl
      (by decide) (fun _ => ⟨"cam5", w5Dev, rfl, by decide, rfl⟩),
    h3 .Humidity (.num (.fin 20)) ⟨none, "Device", none, some "t", some (.fin 101)⟩
      (.inr rfl) (by decide)⟩
